import Mathlib

/-!
# Navigation loop of the non-rotating sushi rover (`src/main.cpp`)

A shallow embedding of the two functions of `main.cpp` that carry the
decision logic of the rover:

* `M5_RoverC_setSpeed` (lines 92-110), the motor mixer, and
* `loop` (lines 169-374), one tick of the navigation loop.

Conventions of the embedding.

* `int` and `int8_t` values are `Int`.  A conversion to `int8_t` is the
  explicit two's complement wrap `toInt8`.  `int` arithmetic is not wrapped:
  the only `int` the loop increments is `rover_goal`, which every waypoint
  block resets as soon as it exceeds 3 (or 2).
* `float` values are exact rationals (`ℚ`): every finite `float` is a rational
  number, and the rounding of the float operations is not modelled.
* The `static` variables of `loop` are the fields of `State`; what `loop`
  reads from the buttons and from the sensor in one tick is an `Input`.
* Display and serial output, and the I2C transfer itself, are not modelled;
  `M5_RoverC_setSpeed` returns the buffer it hands to the transport.
-/

namespace KaitenShinaiSushi

/-! ## Motor mixer -/

/-- Conversion of an `int` to `int8_t`: reduction modulo `2^8` into
`[-128, 127]`. -/
def toInt8 (n : Int) : Int := (n + 128) % 256 - 128

/-- The expression `max(-120, min(120, v))` of lines 102-105. -/
def clamp120 (v : Int) : Int := max (-120) (min 120 v)

/-- The statement `x = int(x * (100 - abs(z)) / 100)` of lines 97-98: the
operands are promoted to `int`, `/` truncates toward zero, and the result is
stored back into the `int8_t` parameter. -/
def scaleLinear (x z : Int) : Int := toInt8 (Int.tdiv (x * (100 - |z|)) 100)

/-- Function `M5_RoverC_setSpeed(int8_t x, int8_t y, int8_t z)`, lines 92-110.
The result is `buffer[0], buffer[1], buffer[2], buffer[3]` as handed to
`M5_RoverC_writeBytes_debug`. -/
def M5_RoverC_setSpeed (x y z : Int) : List Int :=
  let x1 := if z ≠ 0 then scaleLinear x z else x
  let y1 := if z ≠ 0 then scaleLinear y z else y
  let b0 := toInt8 (clamp120 (y1 + x1 - z))
  let b1 := toInt8 (clamp120 (y1 - x1 + z))
  let b3 := toInt8 (clamp120 (y1 + x1 + z))
  let b2 := toInt8 (clamp120 (y1 - x1 - z))
  [b0, b1, b2, b3]

/-- Front left wheel: `buffer[0]` (comment of line 102). -/
def frontLeft (buffer : List Int) : Int := buffer.getD 0 0

/-- Front right wheel: `buffer[1]` (comment of line 103). -/
def frontRight (buffer : List Int) : Int := buffer.getD 1 0

/-- Rear left wheel: `buffer[3]` (comment of line 104). -/
def rearLeft (buffer : List Int) : Int := buffer.getD 3 0

/-- Rear right wheel: `buffer[2]` (comment of line 105). -/
def rearRight (buffer : List Int) : Int := buffer.getD 2 0

/-- Range of an `int8_t`. -/
def IsInt8 (n : Int) : Prop := -128 ≤ n ∧ n ≤ 127

instance (n : Int) : Decidable (IsInt8 n) := by
  unfold IsInt8
  exact inferInstance

/-! ## Navigation loop -/

/-- The `static` variables of `loop` (lines 171-175). -/
structure State where
  /-- Movement mode: 0 stop, 1 square, 2 triangle, 3 line, 4 return home. -/
  rover_flag : Int
  /-- Index of the current goal. -/
  rover_goal : Int
  rover_x_goal : ℚ
  rover_y_goal : ℚ
  rover_z_goal : ℚ
deriving DecidableEq

/-- The initialisers of the `static` variables. -/
def State.init : State :=
  { rover_flag := 0, rover_goal := 0, rover_x_goal := 0, rover_y_goal := 0, rover_z_goal := 0 }

/-- What one tick reads from outside: the two `wasReleased()` button events
and the pose already converted to `int` (lines 192-194). -/
structure Input where
  btnB_wasReleased : Bool
  btnA_wasReleased : Bool
  rover_x_now : Int
  rover_y_now : Int
  rover_z_now : Int
deriving DecidableEq

/-- Body of `if (M5.BtnB.wasReleased())`, lines 197-204 (the sensor calls
are external). -/
def resetEvent (s : State) : State :=
  { s with rover_goal := 0, rover_x_goal := 0, rover_y_goal := 0 }

/-- The chain of conditionals of lines 208-217 on `rover_flag`. -/
def nextFlag (rover_flag : Int) : Int :=
  if rover_flag = 0 then 1
  else if rover_flag = 1 then 2
  else if rover_flag = 2 then 3
  else if rover_flag = 3 then 4
  else 0

/-- Body of `if (M5.BtnA.wasReleased())`, lines 207-218. -/
def modeEvent (s : State) : State :=
  { s with rover_flag := nextFlag s.rover_flag }

/-- Lines 196-218: button B is handled first, then button A. -/
def handleEvents (s : State) (i : Input) : State :=
  let s1 := if i.btnB_wasReleased then resetEvent s else s
  if i.btnA_wasReleased then modeEvent s1 else s1

/-- The sum `dis_x * dis_x + dis_y * dis_y + dis_z * dis_z` of lines 221-226. -/
def disSq (s : State) (i : Input) : ℚ :=
  let dis_x := s.rover_x_goal - i.rover_x_now
  let dis_y := s.rover_y_goal - i.rover_y_now
  let dis_z := s.rover_z_goal - i.rover_z_now
  dis_x * dis_x + dis_y * dis_y + dis_z * dis_z

/-- The test `dis_thresh >= dis` with `dis = sqrt(...)` and `dis_thresh = 50`
(lines 226-230).  The argument of `sqrt` is a sum of squares, so the square
root is at most 50 exactly when its argument is at most `50 * 50`. -/
def arrived (s : State) (i : Input) : Bool :=
  decide (disSq s i ≤ 50 * 50)

/-- Lines 230-251: goal update of the square mode. -/
def squareUpdate (arr : Bool) (s : State) : State :=
  if arr = true ∧ s.rover_flag = 1 then
    let s1 := { s with rover_goal := s.rover_goal + 1 }
    let s2 := if s1.rover_goal > 3 then { s1 with rover_goal := 0 } else s1
    let s3 := if s2.rover_goal = 0 then { s2 with rover_y_goal := 0, rover_x_goal := 0 } else s2
    let s4 := if s3.rover_goal = 1 then { s3 with rover_y_goal := 300, rover_x_goal := 0 } else s3
    let s5 := if s4.rover_goal = 2 then { s4 with rover_y_goal := 300, rover_x_goal := 400 } else s4
    if s5.rover_goal = 3 then { s5 with rover_y_goal := 0, rover_x_goal := 400 } else s5
  else s

/-- Lines 254-275: goal update of the triangle mode. -/
def triangleUpdate (arr : Bool) (s : State) : State :=
  if arr = true ∧ s.rover_flag = 2 then
    let s1 := { s with rover_goal := s.rover_goal + 1 }
    let s2 := if s1.rover_goal > 3 then { s1 with rover_goal := 0 } else s1
    let s3 := if s2.rover_goal = 0 then { s2 with rover_y_goal := 0, rover_x_goal := 0 } else s2
    let s4 := if s3.rover_goal = 1 then { s3 with rover_y_goal := 200, rover_x_goal := 200 } else s3
    let s5 := if s4.rover_goal = 2 then { s4 with rover_y_goal := 0, rover_x_goal := 0 } else s4
    if s5.rover_goal = 3 then { s5 with rover_y_goal := 200, rover_x_goal := -200 } else s5
  else s

/-- Lines 278-291: goal update of the line mode. -/
def lineUpdate (arr : Bool) (s : State) : State :=
  if arr = true ∧ s.rover_flag = 3 then
    let s1 := { s with rover_goal := s.rover_goal + 1 }
    let s2 := if s1.rover_goal > 2 then { s1 with rover_goal := 0 } else s1
    let s3 := if s2.rover_goal = 0 then { s2 with rover_y_goal := 0, rover_x_goal := 0 } else s2
    if s3.rover_goal = 1 then { s3 with rover_y_goal := 0, rover_x_goal := 400 } else s3
  else s

/-- Lines 294-297: the return-home mode forces the goal to the origin. -/
def homeUpdate (s : State) : State :=
  if s.rover_flag = 4 then { s with rover_y_goal := 0, rover_x_goal := 0 } else s

/-- Lines 196-297: the state at the end of a tick.  `dis` is computed once,
after the button events and before the four goal blocks. -/
def nextState (s : State) (i : Input) : State :=
  let s0 := handleEvents s i
  let arr := arrived s0 i
  homeUpdate (lineUpdate arr (triangleUpdate arr (squareUpdate arr s0)))

/-- Lines 309-315 for one component: `if (v < -100) v = -100;` and then
`if (v > 100) v = 100;`. -/
def clamp100 (v : ℚ) : ℚ :=
  let v1 := if v < -100 then -100 else v
  if v1 > 100 then 100 else v1

/-- The three `float` command components `rover_x, rover_y, rover_z`. -/
structure Command where
  rover_x : ℚ
  rover_y : ℚ
  rover_z : ℚ
deriving DecidableEq

/-- Lines 300-315: proportional control with gain `0.80` on the pose error
against goal `(gx, gy, gz)`, then the clamp to `[-100, 100]`. -/
def control (gx gy gz : ℚ) (i : Input) : Command :=
  let z_gain : ℚ := 0.80
  let x_gain : ℚ := 0.80
  { rover_x := clamp100 (-(i.rover_x_now - gx) * x_gain)
    rover_y := clamp100 (-(i.rover_y_now - gy) * x_gain)
    rover_z := clamp100 ((gz - i.rover_z_now) * z_gain) }

/-- The cast `(int)v` of a `float`: truncation toward zero. -/
def toInt (v : ℚ) : Int := if 0 ≤ v then ⌊v⌋ else ⌈v⌉

/-- The arguments of the call of line 321, `(int)rover_x, (int)rover_y,
(int)rover_z`, each converted to the `int8_t` parameter type. -/
def speedArgs (c : Command) : Int × Int × Int :=
  (toInt8 (toInt c.rover_x), toInt8 (toInt c.rover_y), toInt8 (toInt c.rover_z))

/-- Lines 318-321: the buffer dispatched in state `s` with command `c`. -/
def dispatch (s : State) (c : Command) : List Int :=
  if s.rover_flag = 0 then M5_RoverC_setSpeed 0 0 0
  else M5_RoverC_setSpeed (speedArgs c).1 (speedArgs c).2.1 (speedArgs c).2.2

/-- What a tick produces: the new values of the `static` variables, the
command the controller computed and the buffer sent to the motors. -/
structure Tick where
  state : State
  command : Command
  buffer : List Int

/-- Function `loop`, lines 169-374, as a function of the state at entry and
of the inputs read in the tick. -/
def loop (s : State) (i : Input) : Tick :=
  let s1 := nextState s i
  let c := control s1.rover_x_goal s1.rover_y_goal s1.rover_z_goal i
  { state := s1, command := c, buffer := dispatch s1 c }

/-- States the program can be in at the start of a tick. -/
inductive Reachable : State → Prop
  | init : Reachable State.init
  | step (s : State) (i : Input) : Reachable s → Reachable (loop s i).state

/-- Square pattern as the specification lists it. -/
def specSquarePattern : List (ℚ × ℚ) := [(0, 0), (0, 300), (400, 300), (400, 0)]

/-- Triangle pattern as the specification lists it. -/
def specTrianglePattern : List (ℚ × ℚ) := [(0, 0), (200, 200), (0, 0), (-200, 200)]

/-- Pattern of a mode as the specification lists it (1 square, 2 triangle). -/
def specPattern (rover_flag : Int) : List (ℚ × ℚ) :=
  if rover_flag = 1 then specSquarePattern else specTrianglePattern

/-- State after a sequence of ticks, one input per tick. -/
def run (s : State) : List Input → State
  | [] => s
  | i :: rest => run (loop s i).state rest

/-- Entry `k` of a pattern of the specification. -/
def specEntry (pattern : List (ℚ × ℚ)) (k : Int) : ℚ × ℚ := pattern.getD k.toNat (0, 0)

/-- A tick without button events in which the pose is within the arrival
threshold of the goal held in `s`. -/
def ArrivalTick (s : State) (i : Input) : Prop :=
  i.btnB_wasReleased = false ∧ i.btnA_wasReleased = false ∧ arrived s i = true

/-- Iterated mode-advance event on the mode variable. -/
def nextFlagIter : Nat → Int → Int
  | 0, f => f
  | n + 1, f => nextFlagIter n (nextFlag f)

/-- Value of the parameter `x` (or `y`) of `M5_RoverC_setSpeed` after lines
96-99: scaled when `z != 0`, untouched otherwise. -/
def scaledComponent (v z : Int) : Int := if z ≠ 0 then scaleLinear v z else v

/-- The six goal positions that the assignments of `loop` can store. -/
def waypoints : List (ℚ × ℚ) :=
  [(0, 0), (0, 300), (400, 300), (400, 0), (200, 200), (-200, 200)]

/-- Index in `0..3`, goal heading 0 and goal position among `waypoints`. -/
def GoalInvariant (s : State) : Prop :=
  0 ≤ s.rover_goal ∧ s.rover_goal ≤ 3 ∧ s.rover_z_goal = 0 ∧
    (s.rover_x_goal, s.rover_y_goal) ∈ waypoints

/-- The goal position is the entry `rover_goal` of the pattern that the
specification lists for the mode of `s`. -/
def GoalMatchesPattern (s : State) : Prop :=
  (s.rover_x_goal, s.rover_y_goal) = specEntry (specPattern s.rover_flag) s.rover_goal

/-! ## Arithmetic helpers -/

theorem toInt8_of_range (n : Int) (h1 : -128 ≤ n) (h2 : n ≤ 127) : toInt8 n = n := by
  unfold toInt8
  omega

theorem clamp120_range (v : Int) : -120 ≤ clamp120 v ∧ clamp120 v ≤ 120 := by
  unfold clamp120
  omega

theorem toInt8_clamp120 (v : Int) : toInt8 (clamp120 v) = clamp120 v := by
  have h := clamp120_range v
  exact toInt8_of_range _ (by omega) (by omega)

theorem tdiv_hundred (a : Int) :
    Int.tdiv a 100 = if 0 ≤ a then a / 100 else -((-a) / 100) := by
  split
  · next h => exact Int.tdiv_eq_ediv h (by decide)
  · next h =>
    have h1 : Int.tdiv (-a) 100 = (-a) / 100 := Int.tdiv_eq_ediv (by omega) (by decide)
    have h2 := Int.neg_tdiv a 100
    omega

theorem tdiv_hundred_bound (a : Int) (h1 : -12700 ≤ a) (h2 : a ≤ 12700) :
    -128 ≤ Int.tdiv a 100 ∧ Int.tdiv a 100 ≤ 127 := by
  rw [tdiv_hundred]
  split <;> omega

theorem scaled_product_bound (x z : Int) (hx : IsInt8 x) (hz : IsInt8 z) (hz0 : z ≠ 0) :
    -12672 ≤ x * (100 - |z|) ∧ x * (100 - |z|) ≤ 12672 := by
  obtain ⟨hx1, hx2⟩ := hx
  obtain ⟨hz1, hz2⟩ := hz
  have ha : 1 ≤ |z| := Int.one_le_abs hz0
  have hb : |z| ≤ 128 := abs_le.mpr ⟨by omega, by omega⟩
  generalize |z| = c at ha hb
  constructor <;> nlinarith

theorem scaleLinear_eq (x z : Int) (hx : IsInt8 x) (hz : IsInt8 z) (hz0 : z ≠ 0) :
    scaleLinear x z = Int.tdiv (x * (100 - |z|)) 100 := by
  have hb := scaled_product_bound x z hx hz hz0
  have ht := tdiv_hundred_bound (x * (100 - |z|)) (by omega) (by omega)
  exact toInt8_of_range _ ht.1 ht.2

theorem setSpeed_nonzero (x y z : Int) (hz0 : z ≠ 0) :
    M5_RoverC_setSpeed x y z =
      [clamp120 (scaleLinear y z + scaleLinear x z - z),
       clamp120 (scaleLinear y z - scaleLinear x z + z),
       clamp120 (scaleLinear y z - scaleLinear x z - z),
       clamp120 (scaleLinear y z + scaleLinear x z + z)] := by
  simp only [M5_RoverC_setSpeed, toInt8_clamp120, if_pos hz0, ne_eq]

theorem setSpeed_zero (x y : Int) :
    M5_RoverC_setSpeed x y 0 =
      [clamp120 (y + x), clamp120 (y - x), clamp120 (y - x), clamp120 (y + x)] := by
  simp [M5_RoverC_setSpeed, toInt8_clamp120]

theorem scaledComponent_eq (x z : Int) (hx : IsInt8 x) (hz : IsInt8 z) :
    scaledComponent x z = if z ≠ 0 then Int.tdiv (x * (100 - |z|)) 100 else x := by
  unfold scaledComponent
  split
  · next h => exact scaleLinear_eq x z hx hz h
  · rfl

theorem setSpeed_scaled (x y z : Int) :
    M5_RoverC_setSpeed x y z =
      [clamp120 (scaledComponent y z + scaledComponent x z - z),
       clamp120 (scaledComponent y z - scaledComponent x z + z),
       clamp120 (scaledComponent y z - scaledComponent x z - z),
       clamp120 (scaledComponent y z + scaledComponent x z + z)] := by
  simp only [M5_RoverC_setSpeed, toInt8_clamp120, scaledComponent]

/-! ## Properties of the rotation scaling -/

/-- For arguments in `[-100, 100]` the scaled component is the truncated
quotient, also at `z = 0` where nothing is scaled. -/
theorem scaled_formula (f r : Int) (hf1 : -100 ≤ f) (hf2 : f ≤ 100)
    (hr1 : -100 ≤ r) (hr2 : r ≤ 100) :
    scaledComponent f r = Int.tdiv (f * (100 - |r|)) 100 := by
  rw [scaledComponent_eq f r ⟨by omega, by omega⟩ ⟨by omega, by omega⟩]
  split
  · rfl
  · next h =>
    have h0 : r = 0 := by
      by_contra hne
      exact h hne
    subst h0
    simp only [abs_zero, sub_zero]
    exact (Int.mul_tdiv_cancel f (by decide)).symm

theorem tdiv_scale_nonneg (f c1 c2 : Int) (hf : 0 ≤ f) (h0 : 0 ≤ c2) (h12 : c2 ≤ c1)
    (h1 : c1 ≤ 100) :
    0 ≤ Int.tdiv (f * c2) 100 ∧ Int.tdiv (f * c2) 100 ≤ Int.tdiv (f * c1) 100 ∧
      Int.tdiv (f * c1) 100 ≤ f ∧ (f ≤ 100 → Int.tdiv (f * c1) 100 ≤ c1) := by
  have a0 : 0 ≤ f * c2 := Int.mul_nonneg hf h0
  have a1 : f * c2 ≤ f * c1 := Int.mul_le_mul_of_nonneg_left h12 hf
  have a2 : f * c1 ≤ f * 100 := Int.mul_le_mul_of_nonneg_left h1 hf
  have a3 : f ≤ 100 → f * c1 ≤ 100 * c1 := fun hfl =>
    Int.mul_le_mul_of_nonneg_right hfl (by omega)
  rw [tdiv_hundred, tdiv_hundred, if_pos a0, if_pos (by omega)]
  generalize f * c2 = p2 at a0 a1
  generalize f * c1 = p1 at a1 a2 a3
  refine ⟨by omega, by omega, by omega, fun hfl => ?_⟩
  have := a3 hfl
  omega

theorem tdiv_scale_neg (f c : Int) :
    Int.tdiv (f * c) 100 = -Int.tdiv (-f * c) 100 := by
  rw [neg_mul, Int.neg_tdiv, neg_neg]

/-- Bounds of the scaled component for arguments in `[-100, 100]`. -/
theorem scaled_bounds (f r1 r2 : Int) (hf1 : -100 ≤ f) (hf2 : f ≤ 100)
    (h12 : |r1| ≤ |r2|) (h2 : |r2| ≤ 100) :
    |scaledComponent f r2| ≤ |scaledComponent f r1| ∧ |scaledComponent f r1| ≤ |f| ∧
      |scaledComponent f r1| + |r1| ≤ 100 ∧
      (0 ≤ f → 0 ≤ scaledComponent f r1) ∧ (f ≤ 0 → scaledComponent f r1 ≤ 0) := by
  have hr2 := abs_le.mp h2
  have hr1 := abs_le.mp (le_trans h12 h2)
  rw [scaled_formula f r1 hf1 hf2 hr1.1 hr1.2, scaled_formula f r2 hf1 hf2 hr2.1 hr2.2]
  have hc2 : 0 ≤ 100 - |r2| := by omega
  have hc12 : 100 - |r2| ≤ 100 - |r1| := by omega
  have hc1 : 100 - |r1| ≤ 100 := by
    have := abs_nonneg r1
    omega
  have hn1 := abs_nonneg r1
  generalize 100 - |r2| = c2 at hc2 hc12
  generalize hcc : 100 - |r1| = c1 at hc12 hc1
  by_cases hf : 0 ≤ f
  · obtain ⟨b0, b1, b2, b3⟩ := tdiv_scale_nonneg f c1 c2 hf hc2 hc12 hc1
    rw [abs_of_nonneg b0, abs_of_nonneg (le_trans b0 b1), abs_of_nonneg hf]
    have b4 := b3 hf2
    refine ⟨b1, b2, by omega, fun _ => le_trans b0 b1, fun h => ?_⟩
    have : f = 0 := by omega
    subst this
    simp
  · obtain ⟨b0, b1, b2, b3⟩ := tdiv_scale_nonneg (-f) c1 c2 (by omega) hc2 hc12 hc1
    rw [tdiv_scale_neg f c1, tdiv_scale_neg f c2, abs_neg, abs_neg, abs_of_nonneg b0,
      abs_of_nonneg (le_trans b0 b1), abs_of_neg (by omega : f < 0)]
    have b4 := b3 (by omega)
    refine ⟨b1, b2, by omega, fun h => absurd h hf, fun _ => ?_⟩
    have := le_trans b0 b1
    omega

theorem clamp120_neg (v w : Int) (h : w = -v) : clamp120 w = -clamp120 v := by
  subst h
  unfold clamp120
  omega

theorem clamp120_id (v : Int) (h1 : -120 ≤ v) (h2 : v ≤ 120) : clamp120 v = v := by
  unfold clamp120
  omega

theorem scaledComponent_neg (x z : Int) (hx1 : -127 ≤ x) (hx2 : x ≤ 127)
    (hz1 : -127 ≤ z) (hz2 : z ≤ 127) :
    scaledComponent (-x) (-z) = -scaledComponent x z := by
  rw [scaledComponent_eq (-x) (-z) ⟨by omega, by omega⟩ ⟨by omega, by omega⟩,
    scaledComponent_eq x z ⟨by omega, by omega⟩ ⟨by omega, by omega⟩]
  by_cases h : z = 0
  · subst h
    simp
  · have h2 : -z ≠ 0 := by omega
    rw [if_pos h, if_pos h2, abs_neg, neg_mul, Int.neg_tdiv]

/-! ## Frame lemmas of the goal blocks -/

theorem squareUpdate_flag (arr : Bool) (s : State) :
    (squareUpdate arr s).rover_flag = s.rover_flag := by
  unfold squareUpdate
  simp only [apply_ite State.rover_flag, ite_self]

theorem triangleUpdate_flag (arr : Bool) (s : State) :
    (triangleUpdate arr s).rover_flag = s.rover_flag := by
  unfold triangleUpdate
  simp only [apply_ite State.rover_flag, ite_self]

theorem lineUpdate_flag (arr : Bool) (s : State) :
    (lineUpdate arr s).rover_flag = s.rover_flag := by
  unfold lineUpdate
  simp only [apply_ite State.rover_flag, ite_self]

theorem homeUpdate_flag (s : State) : (homeUpdate s).rover_flag = s.rover_flag := by
  unfold homeUpdate
  split_ifs <;> rfl

theorem nextState_flag (s : State) (i : Input) :
    (nextState s i).rover_flag = (handleEvents s i).rover_flag := by
  simp only [nextState, homeUpdate_flag, lineUpdate_flag, triangleUpdate_flag,
    squareUpdate_flag]

theorem squareUpdate_z_goal (arr : Bool) (s : State) :
    (squareUpdate arr s).rover_z_goal = s.rover_z_goal := by
  unfold squareUpdate
  simp only [apply_ite State.rover_z_goal, ite_self]

theorem triangleUpdate_z_goal (arr : Bool) (s : State) :
    (triangleUpdate arr s).rover_z_goal = s.rover_z_goal := by
  unfold triangleUpdate
  simp only [apply_ite State.rover_z_goal, ite_self]

theorem lineUpdate_z_goal (arr : Bool) (s : State) :
    (lineUpdate arr s).rover_z_goal = s.rover_z_goal := by
  unfold lineUpdate
  simp only [apply_ite State.rover_z_goal, ite_self]

theorem homeUpdate_z_goal (s : State) : (homeUpdate s).rover_z_goal = s.rover_z_goal := by
  unfold homeUpdate
  split_ifs <;> rfl

theorem handleEvents_z_goal (s : State) (i : Input) :
    (handleEvents s i).rover_z_goal = s.rover_z_goal := by
  unfold handleEvents
  split_ifs <;> rfl

theorem nextState_z_goal (s : State) (i : Input) :
    (nextState s i).rover_z_goal = s.rover_z_goal := by
  simp only [nextState, homeUpdate_z_goal, lineUpdate_z_goal, triangleUpdate_z_goal,
    squareUpdate_z_goal, handleEvents_z_goal]

/-- No statement of `loop` assigns `rover_z_goal`: it keeps its initial
value 0 in every state the program reaches. -/
theorem reachable_z_goal (s : State) (h : Reachable s) : s.rover_z_goal = 0 := by
  induction h with
  | init => rfl
  | step s i _ ih =>
    show (nextState s i).rover_z_goal = 0
    rw [nextState_z_goal, ih]

/-! ## Waypoint steps -/

theorem handleEvents_no_buttons (s : State) (i : Input)
    (hB : i.btnB_wasReleased = false) (hA : i.btnA_wasReleased = false) :
    handleEvents s i = s := by
  simp [handleEvents, hA, hB]

/-- One arrival in square or triangle mode, without button events. -/
theorem waypoint_step (s : State) (i : Input)
    (hB : i.btnB_wasReleased = false) (hA : i.btnA_wasReleased = false)
    (hf : s.rover_flag = 1 ∨ s.rover_flag = 2)
    (h0 : 0 ≤ s.rover_goal) (h3 : s.rover_goal ≤ 3) (harr : arrived s i = true) :
    (loop s i).state.rover_flag = s.rover_flag ∧
      (loop s i).state.rover_goal = (s.rover_goal + 1) % 4 ∧
      ((loop s i).state.rover_x_goal, (loop s i).state.rover_y_goal) =
        specEntry (specPattern s.rover_flag) ((s.rover_goal + 1) % 4) := by
  obtain ⟨flag, goal, gx, gy, gz⟩ := s
  simp only at hf h0 h3
  have hg : goal = 0 ∨ goal = 1 ∨ goal = 2 ∨ goal = 3 := by omega
  simp only [loop, nextState, handleEvents_no_buttons _ _ hB hA, harr]
  rcases hf with rfl | rfl <;> rcases hg with rfl | rfl | rfl | rfl <;>
    simp [squareUpdate, triangleUpdate, lineUpdate, homeUpdate, specPattern, specEntry,
      specSquarePattern, specTrianglePattern]

/-- Four successive arrivals in square or triangle mode from index 0. -/
theorem waypoint_cycle (s : State) (i1 i2 i3 i4 : Input)
    (hf : s.rover_flag = 1 ∨ s.rover_flag = 2) (hg : s.rover_goal = 0)
    (h1 : ArrivalTick s i1) (h2 : ArrivalTick (run s [i1]) i2)
    (h3 : ArrivalTick (run s [i1, i2]) i3) (h4 : ArrivalTick (run s [i1, i2, i3]) i4) :
    (run s [i1]).rover_goal = 1 ∧ (run s [i1, i2]).rover_goal = 2 ∧
      (run s [i1, i2, i3]).rover_goal = 3 ∧ (run s [i1, i2, i3, i4]).rover_goal = 0 := by
  simp only [run] at h2 h3 h4 ⊢
  obtain ⟨a1, b1, c1⟩ := waypoint_step s i1 h1.1 h1.2.1 hf (by omega) (by omega) h1.2.2
  rw [hg] at b1
  obtain ⟨a2, b2, c2⟩ := waypoint_step _ i2 h2.1 h2.2.1 (by rw [a1]; exact hf)
    (by omega) (by omega) h2.2.2
  rw [b1] at b2
  obtain ⟨a3, b3, c3⟩ := waypoint_step _ i3 h3.1 h3.2.1 (by rw [a2, a1]; exact hf)
    (by omega) (by omega) h3.2.2
  rw [b2] at b3
  obtain ⟨a4, b4, c4⟩ := waypoint_step _ i4 h4.1 h4.2.1 (by rw [a3, a2, a1]; exact hf)
    (by omega) (by omega) h4.2.2
  rw [b3] at b4
  exact ⟨b1, b2, b3, b4⟩

/-! ## Invariant of the reachable states -/

theorem squareUpdate_inv (arr : Bool) (s : State) (h : GoalInvariant s) :
    GoalInvariant (squareUpdate arr s) := by
  obtain ⟨flag, idx, gx, gy, gz⟩ := s
  obtain ⟨h0, h3, hz, hw⟩ := h
  simp only at h0 h3 hz hw
  by_cases hc : arr = true ∧ flag = 1
  · obtain ⟨rfl, rfl⟩ := hc
    have hg : idx = 0 ∨ idx = 1 ∨ idx = 2 ∨ idx = 3 := by omega
    rcases hg with rfl | rfl | rfl | rfl <;>
      simp [squareUpdate, GoalInvariant, waypoints, hz]
  · simp only [squareUpdate, if_neg hc]
    exact ⟨h0, h3, hz, hw⟩

theorem triangleUpdate_inv (arr : Bool) (s : State) (h : GoalInvariant s) :
    GoalInvariant (triangleUpdate arr s) := by
  obtain ⟨flag, idx, gx, gy, gz⟩ := s
  obtain ⟨h0, h3, hz, hw⟩ := h
  simp only at h0 h3 hz hw
  by_cases hc : arr = true ∧ flag = 2
  · obtain ⟨rfl, rfl⟩ := hc
    have hg : idx = 0 ∨ idx = 1 ∨ idx = 2 ∨ idx = 3 := by omega
    rcases hg with rfl | rfl | rfl | rfl <;>
      simp [triangleUpdate, GoalInvariant, waypoints, hz]
  · simp only [triangleUpdate, if_neg hc]
    exact ⟨h0, h3, hz, hw⟩

theorem lineUpdate_inv (arr : Bool) (s : State) (h : GoalInvariant s) :
    GoalInvariant (lineUpdate arr s) := by
  obtain ⟨flag, idx, gx, gy, gz⟩ := s
  obtain ⟨h0, h3, hz, hw⟩ := h
  simp only at h0 h3 hz hw
  by_cases hc : arr = true ∧ flag = 3
  · obtain ⟨rfl, rfl⟩ := hc
    have hg : idx = 0 ∨ idx = 1 ∨ idx = 2 ∨ idx = 3 := by omega
    rcases hg with rfl | rfl | rfl | rfl
    · simp [lineUpdate, GoalInvariant, waypoints, hz]
    · have e : lineUpdate true ⟨3, 1, gx, gy, gz⟩ = ⟨3, 2, gx, gy, gz⟩ := by
        simp [lineUpdate]
      rw [e]
      exact ⟨show (0 : Int) ≤ 2 by decide, show (2 : Int) ≤ 3 by decide, hz, hw⟩
    · simp [lineUpdate, GoalInvariant, waypoints, hz]
    · simp [lineUpdate, GoalInvariant, waypoints, hz]
  · simp only [lineUpdate, if_neg hc]
    exact ⟨h0, h3, hz, hw⟩

theorem homeUpdate_inv (s : State) (h : GoalInvariant s) : GoalInvariant (homeUpdate s) := by
  obtain ⟨h0, h3, hz, hw⟩ := h
  unfold homeUpdate
  split
  · exact ⟨h0, h3, hz, by simp [waypoints]⟩
  · exact ⟨h0, h3, hz, hw⟩

theorem handleEvents_inv (s : State) (i : Input) (h : GoalInvariant s) :
    GoalInvariant (handleEvents s i) := by
  obtain ⟨h0, h3, hz, hw⟩ := h
  have hr : GoalInvariant (resetEvent s) :=
    ⟨show (0 : Int) ≤ 0 by decide, show (0 : Int) ≤ 3 by decide, hz,
      by simp [resetEvent, waypoints]⟩
  unfold handleEvents
  by_cases hB : i.btnB_wasReleased = true <;> by_cases hA : i.btnA_wasReleased = true
  · simp only [hB, hA, if_true]
    exact hr
  · simp only [hB, hA, if_true]
    exact hr
  · simp only [hB, hA, if_true]
    exact ⟨h0, h3, hz, hw⟩
  · simp only [hB, hA]
    exact ⟨h0, h3, hz, hw⟩

theorem nextState_inv (s : State) (i : Input) (h : GoalInvariant s) :
    GoalInvariant (nextState s i) :=
  homeUpdate_inv _ (lineUpdate_inv _ _ (triangleUpdate_inv _ _
    (squareUpdate_inv _ _ (handleEvents_inv s i h))))

theorem init_inv : GoalInvariant State.init :=
  ⟨show (0 : Int) ≤ 0 by decide, show (0 : Int) ≤ 3 by decide, rfl,
    by simp [State.init, waypoints]⟩

theorem run_inv (inputs : List Input) (s : State) (h : GoalInvariant s) :
    GoalInvariant (run s inputs) := by
  induction inputs generalizing s with
  | nil => exact h
  | cons i rest ih => exact ih _ (nextState_inv s i h)

theorem reachable_run (inputs : List Input) (s : State) (h : Reachable s) :
    Reachable (run s inputs) := by
  induction inputs generalizing s with
  | nil => exact h
  | cons i rest ih => exact ih _ (Reachable.step s i h)

theorem reachable_iff_run (s : State) :
    Reachable s ↔ ∃ inputs : List Input, s = run State.init inputs := by
  constructor
  · intro h
    induction h with
    | init => exact ⟨[], rfl⟩
    | step s i _ ih =>
      obtain ⟨l, hl⟩ := ih
      refine ⟨l ++ [i], ?_⟩
      have key : ∀ (l : List Input) (t : State), run t (l ++ [i]) = (loop (run t l) i).state := by
        intro l
        induction l with
        | nil => intro t; rfl
        | cons a rest ih2 => intro t; exact ih2 _
      rw [key, ← hl]
  · rintro ⟨l, rfl⟩
    exact reachable_run l _ Reachable.init

/-! ## Index and goal after the goal blocks -/

theorem squareUpdate_goal (arr : Bool) (s : State) :
    (squareUpdate arr s).rover_goal =
      if arr = true ∧ s.rover_flag = 1 then
        (if s.rover_goal + 1 > 3 then 0 else s.rover_goal + 1)
      else s.rover_goal := by
  unfold squareUpdate
  simp only [apply_ite State.rover_goal, ite_self]

theorem triangleUpdate_goal (arr : Bool) (s : State) :
    (triangleUpdate arr s).rover_goal =
      if arr = true ∧ s.rover_flag = 2 then
        (if s.rover_goal + 1 > 3 then 0 else s.rover_goal + 1)
      else s.rover_goal := by
  unfold triangleUpdate
  simp only [apply_ite State.rover_goal, ite_self]

theorem lineUpdate_goal (arr : Bool) (s : State) :
    (lineUpdate arr s).rover_goal =
      if arr = true ∧ s.rover_flag = 3 then
        (if s.rover_goal + 1 > 2 then 0 else s.rover_goal + 1)
      else s.rover_goal := by
  unfold lineUpdate
  simp only [apply_ite State.rover_goal, ite_self]

theorem homeUpdate_goal (s : State) : (homeUpdate s).rover_goal = s.rover_goal := by
  unfold homeUpdate
  split_ifs <;> rfl

/-- Index at the end of a tick without button events. -/
theorem nextState_goal (s : State) (i : Input)
    (hB : i.btnB_wasReleased = false) (hA : i.btnA_wasReleased = false) :
    (nextState s i).rover_goal =
      if arrived s i = true ∧ (s.rover_flag = 1 ∨ s.rover_flag = 2) then
        (if s.rover_goal + 1 > 3 then 0 else s.rover_goal + 1)
      else if arrived s i = true ∧ s.rover_flag = 3 then
        (if s.rover_goal + 1 > 2 then 0 else s.rover_goal + 1)
      else s.rover_goal := by
  simp only [nextState, handleEvents_no_buttons s i hB hA, homeUpdate_goal, lineUpdate_goal,
    triangleUpdate_flag, squareUpdate_flag, triangleUpdate_goal, squareUpdate_goal]
  by_cases h1 : s.rover_flag = 1
  · simp [h1]
  · by_cases h2 : s.rover_flag = 2
    · simp [h2]
    · by_cases h3 : s.rover_flag = 3
      · simp [h3]
      · simp [h1, h2, h3]

/-- Without arrival and outside the return-home mode the goal blocks leave
the state as it is. -/
theorem blocks_not_arrived (s : State) (hf : s.rover_flag ≠ 4) :
    homeUpdate (lineUpdate false (triangleUpdate false (squareUpdate false s))) = s := by
  simp [squareUpdate, triangleUpdate, lineUpdate, homeUpdate, hf]

theorem nextState_not_arrived (s : State) (i : Input)
    (hB : i.btnB_wasReleased = false) (hA : i.btnA_wasReleased = false)
    (hf : s.rover_flag ≠ 4) (harr : arrived s i = false) :
    nextState s i = s := by
  simp only [nextState, handleEvents_no_buttons s i hB hA, harr]
  exact blocks_not_arrived s hf

/-- In square or triangle mode the goal blocks establish the pattern entry on
arrival and keep it otherwise. -/
theorem blocks_match (arr : Bool) (s : State) (hinv : GoalInvariant s)
    (hf : s.rover_flag = 1 ∨ s.rover_flag = 2)
    (h : arr = true ∨ GoalMatchesPattern s) :
    GoalMatchesPattern
      (homeUpdate (lineUpdate arr (triangleUpdate arr (squareUpdate arr s)))) := by
  cases arr with
  | false =>
    rw [blocks_not_arrived s (by omega)]
    rcases h with h | h
    · exact absurd h (by decide)
    · exact h
  | true =>
    obtain ⟨flag, idx, gx, gy, gz⟩ := s
    obtain ⟨h0, h3, _, _⟩ := hinv
    simp only at hf h0 h3
    have hg : idx = 0 ∨ idx = 1 ∨ idx = 2 ∨ idx = 3 := by omega
    rcases hf with rfl | rfl <;> rcases hg with rfl | rfl | rfl | rfl <;>
      simp [GoalMatchesPattern, squareUpdate, triangleUpdate, lineUpdate, homeUpdate,
        specPattern, specEntry, specSquarePattern, specTrianglePattern]

/-- One tick without mode-advance event in square or triangle mode. -/
theorem pattern_step (s : State) (i : Input) (hinv : GoalInvariant s)
    (hA : i.btnA_wasReleased = false) (hf : s.rover_flag = 1 ∨ s.rover_flag = 2)
    (h : GoalMatchesPattern s ∨ i.btnB_wasReleased = true ∨
      arrived (handleEvents s i) i = true) :
    GoalMatchesPattern (nextState s i) ∧ (nextState s i).rover_flag = s.rover_flag := by
  have hflag : (handleEvents s i).rover_flag = s.rover_flag := by
    unfold handleEvents
    cases i.btnB_wasReleased <;> simp [hA, resetEvent]
  refine ⟨?_, by rw [nextState_flag, hflag]⟩
  have hm : arrived (handleEvents s i) i = true ∨ GoalMatchesPattern (handleEvents s i) := by
    rcases h with h | h | h
    · cases hB : i.btnB_wasReleased
      · right
        rw [handleEvents_no_buttons s i hB hA]
        exact h
      · right
        rcases hf with hf | hf <;>
          simp [handleEvents, hA, hB, resetEvent, GoalMatchesPattern, hf, specPattern,
            specEntry, specSquarePattern, specTrianglePattern]
    · right
      rcases hf with hf | hf <;>
        simp [handleEvents, hA, h, resetEvent, GoalMatchesPattern, hf, specPattern,
          specEntry, specSquarePattern, specTrianglePattern]
    · left
      exact h
  exact blocks_match _ _ (handleEvents_inv s i hinv) (by rw [hflag]; exact hf) hm

/-! ## Controller helpers -/

theorem clamp100_range (v : ℚ) : -100 ≤ clamp100 v ∧ clamp100 v ≤ 100 := by
  unfold clamp100
  dsimp only
  split_ifs <;> constructor <;> linarith

theorem toInt_range (v : ℚ) (h1 : -100 ≤ v) (h2 : v ≤ 100) :
    -100 ≤ toInt v ∧ toInt v ≤ 100 := by
  unfold toInt
  split
  · next h0 =>
    have ha : (0 : Int) ≤ ⌊v⌋ := Int.floor_nonneg.mpr h0
    have hb : ⌊v⌋ ≤ 100 := by
      have : ((⌊v⌋ : Int) : ℚ) ≤ (100 : Int) := by
        have := Int.floor_le v
        push_cast
        linarith
      exact_mod_cast this
    omega
  · next h0 =>
    have ha : ⌈v⌉ ≤ 0 := Int.ceil_le.mpr (by push_cast; linarith)
    have hb : (-100 : Int) ≤ ⌈v⌉ := by
      have : (((-100 : Int)) : ℚ) ≤ ((⌈v⌉ : Int) : ℚ) := by
        have := Int.le_ceil v
        push_cast
        linarith
      exact_mod_cast this
    omega

theorem toInt_clamp100_range (v : ℚ) :
    -100 ≤ toInt (clamp100 v) ∧ toInt (clamp100 v) ≤ 100 :=
  toInt_range _ (clamp100_range v).1 (clamp100_range v).2

/-! ## Motor mixer: claims -/

/-- C1. For every command `(x, y, z)` (in particular every triple of signed
8-bit integers) the buffer written by `M5_RoverC_setSpeed` has four entries,
the four wheel speeds, and each of them lies in `[-120, 120]`. -/
theorem C1_setSpeed_wheels_in_range (x y z : Int) :
    (M5_RoverC_setSpeed x y z).length = 4 ∧
      (-120 ≤ frontLeft (M5_RoverC_setSpeed x y z) ∧
        frontLeft (M5_RoverC_setSpeed x y z) ≤ 120) ∧
      (-120 ≤ frontRight (M5_RoverC_setSpeed x y z) ∧
        frontRight (M5_RoverC_setSpeed x y z) ≤ 120) ∧
      (-120 ≤ rearRight (M5_RoverC_setSpeed x y z) ∧
        rearRight (M5_RoverC_setSpeed x y z) ≤ 120) ∧
      (-120 ≤ rearLeft (M5_RoverC_setSpeed x y z) ∧
        rearLeft (M5_RoverC_setSpeed x y z) ≤ 120) := by
  refine ⟨rfl, ?_, ?_, ?_, ?_⟩ <;>
    simp only [M5_RoverC_setSpeed, toInt8_clamp120, frontLeft, frontRight, rearLeft,
      rearRight, List.getD_cons_zero, List.getD_cons_succ] <;>
    exact clamp120_range _

/-- C4. With `rotate = 0` the linear components are used unscaled: the two
left wheels get `clamp120 (lateral + forward)` and the two right wheels
`clamp120 (lateral - forward)`, for every `forward = x` and `lateral = y`;
and the command `(100, 0, 0)` gives 100 on the left and -100 on the right. -/
theorem C4_setSpeed_no_rotation (x y : Int) :
    (frontLeft (M5_RoverC_setSpeed x y 0) = clamp120 (y + x) ∧
      rearLeft (M5_RoverC_setSpeed x y 0) = clamp120 (y + x) ∧
      frontRight (M5_RoverC_setSpeed x y 0) = clamp120 (y - x) ∧
      rearRight (M5_RoverC_setSpeed x y 0) = clamp120 (y - x)) ∧
    (frontLeft (M5_RoverC_setSpeed 100 0 0) = 100 ∧
      rearLeft (M5_RoverC_setSpeed 100 0 0) = 100 ∧
      frontRight (M5_RoverC_setSpeed 100 0 0) = -100 ∧
      rearRight (M5_RoverC_setSpeed 100 0 0) = -100) := by
  refine ⟨?_, by decide⟩
  rw [setSpeed_zero]
  simp [frontLeft, rearLeft, frontRight, rearRight]

/-- C5. With `rotate = z ≠ 0` and signed 8-bit arguments the mixer replaces
`forward = x` by `x * (100 - |z|) / 100` and `lateral = y` by
`y * (100 - |z|) / 100`, the division truncating toward zero, and the four
wheels are the clamped sums of the mixing matrix on the scaled values; the
command `(100, 0, 50)` scales forward to 50 and gives front left 0. -/
theorem C5_setSpeed_rotation_scaling (x y z : Int)
    (hx : IsInt8 x) (hy : IsInt8 y) (hz : IsInt8 z) (hz0 : z ≠ 0) :
    (frontLeft (M5_RoverC_setSpeed x y z) =
        clamp120 (Int.tdiv (y * (100 - |z|)) 100 + Int.tdiv (x * (100 - |z|)) 100 - z) ∧
      frontRight (M5_RoverC_setSpeed x y z) =
        clamp120 (Int.tdiv (y * (100 - |z|)) 100 - Int.tdiv (x * (100 - |z|)) 100 + z) ∧
      rearLeft (M5_RoverC_setSpeed x y z) =
        clamp120 (Int.tdiv (y * (100 - |z|)) 100 + Int.tdiv (x * (100 - |z|)) 100 + z) ∧
      rearRight (M5_RoverC_setSpeed x y z) =
        clamp120 (Int.tdiv (y * (100 - |z|)) 100 - Int.tdiv (x * (100 - |z|)) 100 - z)) ∧
    (scaleLinear 100 50 = 50 ∧ frontLeft (M5_RoverC_setSpeed 100 0 50) = 0) := by
  refine ⟨?_, by decide⟩
  rw [setSpeed_nonzero x y z hz0, scaleLinear_eq x z hx hz hz0, scaleLinear_eq y z hy hz hz0]
  simp [frontLeft, rearLeft, frontRight, rearRight]

/-- Witness of C5 at the command `(-128, 127, -128)`, where `100 - |z|` is
negative. -/
theorem C5_setSpeed_rotation_scaling_witness :
    IsInt8 (-128) ∧ IsInt8 127 ∧ (-128 : Int) ≠ 0 ∧
      frontLeft (M5_RoverC_setSpeed (-128) 127 (-128)) =
        clamp120 (Int.tdiv (127 * (100 - |(-128 : Int)|)) 100 +
          Int.tdiv (-128 * (100 - |(-128 : Int)|)) 100 - -128) :=
  ⟨by decide, by decide, by decide,
    (C5_setSpeed_rotation_scaling (-128) 127 (-128)
      (by decide) (by decide) (by decide) (by decide)).1.1⟩

/-! ## Navigation loop: claims -/

/-- C2. Whatever the state, the goal, the goal index and the pose are, a tick
whose mode after the button events is 0 (stopped) dispatches the buffer
`0, 0, 0, 0`. -/
theorem C2_stopped_dispatches_zero (s : State) (i : Input)
    (h : (handleEvents s i).rover_flag = 0) :
    (loop s i).buffer = [0, 0, 0, 0] := by
  have hf : (nextState s i).rover_flag = 0 := by rw [nextState_flag, h]
  simp only [loop, dispatch, hf, if_true]
  decide

/-- Witness of C2: return-home mode, button A released, pose far from the
goal. -/
theorem C2_stopped_dispatches_zero_witness :
    (loop ⟨4, 2, 400, 300, 0⟩ ⟨false, true, 1000, -2000, 90⟩).buffer = [0, 0, 0, 0] :=
  C2_stopped_dispatches_zero ⟨4, 2, 400, 300, 0⟩ ⟨false, true, 1000, -2000, 90⟩ (by decide)

/-- C3. For every integer pose and every goal `(gx, gy, gz)` the three
components of the command, gain 0.8 times the pose error, lie in
`[-100, 100]` after the clamp and again after the truncation to `int`, and the
conversion to the `int8_t` parameters keeps them; in particular this holds
for the command of every tick. -/
theorem C3_command_in_range (s : State) (gx gy gz : ℚ) (i : Input) :
    ((-100 ≤ toInt (control gx gy gz i).rover_x ∧ toInt (control gx gy gz i).rover_x ≤ 100) ∧
      (-100 ≤ toInt (control gx gy gz i).rover_y ∧ toInt (control gx gy gz i).rover_y ≤ 100) ∧
      (-100 ≤ toInt (control gx gy gz i).rover_z ∧ toInt (control gx gy gz i).rover_z ≤ 100)) ∧
    ((control gx gy gz i).rover_x = clamp100 (-(i.rover_x_now - gx) * (8 / 10)) ∧
      (control gx gy gz i).rover_y = clamp100 (-(i.rover_y_now - gy) * (8 / 10)) ∧
      (control gx gy gz i).rover_z = clamp100 ((gz - i.rover_z_now) * (8 / 10))) ∧
    speedArgs (control gx gy gz i) =
      (toInt (control gx gy gz i).rover_x, toInt (control gx gy gz i).rover_y,
        toInt (control gx gy gz i).rover_z) ∧
    ((-100 ≤ toInt (loop s i).command.rover_x ∧ toInt (loop s i).command.rover_x ≤ 100) ∧
      (-100 ≤ toInt (loop s i).command.rover_y ∧ toInt (loop s i).command.rover_y ≤ 100) ∧
      (-100 ≤ toInt (loop s i).command.rover_z ∧ toInt (loop s i).command.rover_z ≤ 100)) := by
  have key : ∀ gx gy gz : ℚ,
      ((-100 ≤ toInt (control gx gy gz i).rover_x ∧ toInt (control gx gy gz i).rover_x ≤ 100) ∧
      (-100 ≤ toInt (control gx gy gz i).rover_y ∧ toInt (control gx gy gz i).rover_y ≤ 100) ∧
      (-100 ≤ toInt (control gx gy gz i).rover_z ∧
        toInt (control gx gy gz i).rover_z ≤ 100)) := by
    intro gx gy gz
    exact ⟨toInt_clamp100_range _, toInt_clamp100_range _, toInt_clamp100_range _⟩
  refine ⟨key gx gy gz, ?_, ?_, key _ _ _⟩
  · simp only [control]
    norm_num
  · obtain ⟨⟨a1, a2⟩, ⟨b1, b2⟩, ⟨c1, c2⟩⟩ := key gx gy gz
    simp only [speedArgs]
    rw [toInt8_of_range _ (by omega) (by omega), toInt8_of_range _ (by omega) (by omega),
      toInt8_of_range _ (by omega) (by omega)]

/-- C6. In square mode (1) and in triangle mode (2), for every goal index
`0..3`, a tick without button events whose pose is within the arrival
threshold of the current goal keeps the mode, sets `rover_goal` to
`(rover_goal + 1) mod 4` and sets the goal position to that entry of the
pattern of the mode; hence four such ticks in a row, starting at index 0,
visit the indices 1, 2, 3, 0. -/
theorem C6_square_triangle_arrival (s : State) (i i2 i3 i4 : Input)
    (hf : s.rover_flag = 1 ∨ s.rover_flag = 2)
    (h0 : 0 ≤ s.rover_goal) (h3 : s.rover_goal ≤ 3) (h : ArrivalTick s i) :
    ((loop s i).state.rover_flag = s.rover_flag ∧
      (loop s i).state.rover_goal = (s.rover_goal + 1) % 4 ∧
      ((loop s i).state.rover_x_goal, (loop s i).state.rover_y_goal) =
        specEntry (specPattern s.rover_flag) ((s.rover_goal + 1) % 4)) ∧
    (s.rover_goal = 0 → ArrivalTick (run s [i]) i2 → ArrivalTick (run s [i, i2]) i3 →
      ArrivalTick (run s [i, i2, i3]) i4 →
      (run s [i]).rover_goal = 1 ∧ (run s [i, i2]).rover_goal = 2 ∧
        (run s [i, i2, i3]).rover_goal = 3 ∧ (run s [i, i2, i3, i4]).rover_goal = 0) :=
  ⟨waypoint_step s i h.1 h.2.1 hf h0 h3 h.2.2,
    fun hg a2 a3 a4 => waypoint_cycle s i i2 i3 i4 hf hg h a2 a3 a4⟩

/-- Witness of C6: square mode at index 0, four arrivals at the poses
`(30, 40, 0)`, `(0, 300, 0)`, `(400, 300, 0)` and `(400, 0, 0)`. -/
theorem C6_square_triangle_arrival_witness :
    (loop ⟨1, 0, 0, 0, 0⟩ ⟨false, false, 30, 40, 0⟩).state.rover_goal = (0 + 1) % 4 ∧
      ((loop ⟨1, 0, 0, 0, 0⟩ ⟨false, false, 30, 40, 0⟩).state.rover_x_goal,
        (loop ⟨1, 0, 0, 0, 0⟩ ⟨false, false, 30, 40, 0⟩).state.rover_y_goal) =
        specEntry (specPattern 1) ((0 + 1) % 4) ∧
      (run ⟨1, 0, 0, 0, 0⟩ [⟨false, false, 30, 40, 0⟩, ⟨false, false, 0, 300, 0⟩,
        ⟨false, false, 400, 300, 0⟩, ⟨false, false, 400, 0, 0⟩]).rover_goal = 0 := by
  have e1 : run ⟨1, 0, 0, 0, 0⟩ [⟨false, false, 30, 40, 0⟩] = ⟨1, 1, 0, 300, 0⟩ := by
    norm_num [run, loop, nextState, handleEvents, arrived, disSq, squareUpdate,
      triangleUpdate, lineUpdate, homeUpdate]
  have e2 : run ⟨1, 0, 0, 0, 0⟩ [⟨false, false, 30, 40, 0⟩, ⟨false, false, 0, 300, 0⟩] =
      ⟨1, 2, 400, 300, 0⟩ := by
    norm_num [run, loop, nextState, handleEvents, arrived, disSq, squareUpdate,
      triangleUpdate, lineUpdate, homeUpdate]
  have e3 : run ⟨1, 0, 0, 0, 0⟩ [⟨false, false, 30, 40, 0⟩, ⟨false, false, 0, 300, 0⟩,
      ⟨false, false, 400, 300, 0⟩] = ⟨1, 3, 400, 0, 0⟩ := by
    norm_num [run, loop, nextState, handleEvents, arrived, disSq, squareUpdate,
      triangleUpdate, lineUpdate, homeUpdate]
  have h := C6_square_triangle_arrival ⟨1, 0, 0, 0, 0⟩ ⟨false, false, 30, 40, 0⟩
    ⟨false, false, 0, 300, 0⟩ ⟨false, false, 400, 300, 0⟩ ⟨false, false, 400, 0, 0⟩
    (Or.inl rfl) (by decide) (by decide)
    ⟨rfl, rfl, by norm_num [arrived, disSq]⟩
  refine ⟨h.1.2.1, h.1.2.2, (h.2 rfl ?_ ?_ ?_).2.2.2⟩
  · rw [e1]
    exact ⟨rfl, rfl, by norm_num [arrived, disSq]⟩
  · rw [e2]
    exact ⟨rfl, rfl, by norm_num [arrived, disSq]⟩
  · rw [e3]
    exact ⟨rfl, rfl, by norm_num [arrived, disSq]⟩

/-- C7 (evaluation of the code). From the initial state, three mode-advance
events with the pose `(1000, 1000, 0)` lead to line mode (3) at index 0; an
arrival at the pose `(0, 0, 0)` then sets index 1 with goal `(400, 0)`; the
next arrival, at the pose `(400, 0, 0)`, sets `rover_goal` to 2, not to 0, and
leaves the goal at `(400, 0)`; only the arrival after that sets index 0 with
goal `(0, 0)`.  The test of line 280 is `rover_goal > 2`. -/
theorem C7_line_index_reaches_two :
    run State.init [⟨false, true, 1000, 1000, 0⟩, ⟨false, true, 1000, 1000, 0⟩,
      ⟨false, true, 1000, 1000, 0⟩] = ⟨3, 0, 0, 0, 0⟩ ∧
    (loop ⟨3, 0, 0, 0, 0⟩ ⟨false, false, 0, 0, 0⟩).state = ⟨3, 1, 400, 0, 0⟩ ∧
    (loop ⟨3, 1, 400, 0, 0⟩ ⟨false, false, 400, 0, 0⟩).state = ⟨3, 2, 400, 0, 0⟩ ∧
    (loop ⟨3, 2, 400, 0, 0⟩ ⟨false, false, 400, 0, 0⟩).state = ⟨3, 0, 0, 0, 0⟩ := by
  refine ⟨?_, ?_, ?_, ?_⟩ <;>
    norm_num [run, loop, nextState, handleEvents, arrived, disSq, squareUpdate,
      triangleUpdate, lineUpdate, homeUpdate, State.init, modeEvent, nextFlag]

/-- C8. In every state the program reaches and for every pose, a tick whose
mode after the button events is 4 (return home) ends with goal position
`(0, 0)` and goal heading 0, within the threshold or not, and the command of
this tick is the one computed against that goal. -/
theorem C8_return_home_goal (s : State) (i : Input) (hs : Reachable s)
    (h : (handleEvents s i).rover_flag = 4) :
    (loop s i).state.rover_x_goal = 0 ∧ (loop s i).state.rover_y_goal = 0 ∧
      (loop s i).state.rover_z_goal = 0 ∧ (loop s i).command = control 0 0 0 i := by
  have hz : (nextState s i).rover_z_goal = 0 := by
    rw [nextState_z_goal, reachable_z_goal s hs]
  have hx : (nextState s i).rover_x_goal = 0 ∧ (nextState s i).rover_y_goal = 0 := by
    unfold nextState
    dsimp only
    unfold homeUpdate
    rw [if_pos (by
      rw [lineUpdate_flag, triangleUpdate_flag, squareUpdate_flag]
      exact h)]
    exact ⟨rfl, rfl⟩
  refine ⟨hx.1, hx.2, hz, ?_⟩
  show control (nextState s i).rover_x_goal (nextState s i).rover_y_goal
    (nextState s i).rover_z_goal i = control 0 0 0 i
  rw [hx.1, hx.2, hz]

/-- Witness of C8: the state reached from the initial state by three
mode-advance events, then a fourth one with the pose `(1000, 500, 30)`. -/
theorem C8_return_home_goal_witness :
    (loop (run State.init [⟨false, true, 0, 0, 0⟩, ⟨false, true, 0, 0, 0⟩,
        ⟨false, true, 0, 0, 0⟩]) ⟨false, true, 1000, 500, 30⟩).state.rover_x_goal = 0 ∧
      (loop (run State.init [⟨false, true, 0, 0, 0⟩, ⟨false, true, 0, 0, 0⟩,
        ⟨false, true, 0, 0, 0⟩]) ⟨false, true, 1000, 500, 30⟩).command =
        control 0 0 0 ⟨false, true, 1000, 500, 30⟩ := by
  have h := C8_return_home_goal
    (run State.init [⟨false, true, 0, 0, 0⟩, ⟨false, true, 0, 0, 0⟩, ⟨false, true, 0, 0, 0⟩])
    ⟨false, true, 1000, 500, 30⟩
    (Reachable.step _ _ (Reachable.step _ _ (Reachable.step _ _ Reachable.init)))
    (by simp [run, loop, nextState_flag, handleEvents, modeEvent, nextFlag, State.init])
  exact ⟨h.1, h.2.2.2⟩

/-- C9. The mode-advance event maps 0 (stopped) to 1 (square), 1 to 2
(triangle), 2 to 3 (line), 3 to 4 (return home) and 4 to 0; from each of the
five modes five events lead back to the mode and no smaller positive number
of events does. -/
theorem C9_mode_cycle :
    (∀ s : State, (modeEvent s).rover_flag = nextFlag s.rover_flag) ∧
    (nextFlag 0 = 1 ∧ nextFlag 1 = 2 ∧ nextFlag 2 = 3 ∧ nextFlag 3 = 4 ∧ nextFlag 4 = 0) ∧
    ∀ m ∈ [(0 : Int), 1, 2, 3, 4],
      nextFlagIter 5 m = m ∧ ∀ k < 5, 0 < k → nextFlagIter k m ≠ m := by
  refine ⟨fun _ => rfl, by decide, by decide⟩

/-- Witness of C9 at mode 3 (line): five events lead back to 3, two do not. -/
theorem C9_mode_cycle_witness : nextFlagIter 5 3 = 3 ∧ nextFlagIter 2 3 ≠ 3 :=
  ⟨(C9_mode_cycle.2.2 3 (by decide)).1,
    (C9_mode_cycle.2.2 3 (by decide)).2 2 (by decide) (by decide)⟩

/-- C10. Handling the calibration-reset event (button B) sets `rover_goal` to
0 and the goal position to `(0, 0)` and leaves the mode and the goal heading
as they were, in every state. -/
theorem C10_reset_event (s : State) (x y z : Int) :
    resetEvent s =
      { rover_flag := s.rover_flag, rover_goal := 0, rover_x_goal := 0, rover_y_goal := 0,
        rover_z_goal := s.rover_z_goal } ∧
    handleEvents s ⟨true, false, x, y, z⟩ = resetEvent s := by
  exact ⟨rfl, rfl⟩

/-! ## Claims on events, scenario and buffer order -/

/-- C11 (counterexample). In square mode at index 2 with goal `(400, 300)` the
calibration-reset event gives index 0 and goal `(0, 0)` but the mode stays 1:
it is not 0 (stopped), also at the end of the tick that handles the event. -/
theorem C11_reset_keeps_square_mode :
    resetEvent ⟨1, 2, 400, 300, 0⟩ = ⟨1, 0, 0, 0, 0⟩ ∧
      (resetEvent ⟨1, 2, 400, 300, 0⟩).rover_flag ≠ 0 ∧
      (loop ⟨1, 2, 400, 300, 0⟩ ⟨true, false, 1000, 1000, 0⟩).state.rover_flag ≠ 0 := by
  refine ⟨rfl, by decide, ?_⟩
  show (nextState _ _).rover_flag ≠ 0
  rw [nextState_flag]
  decide

/-- C11 (amended). In every state the calibration-reset event sets
`rover_goal` to 0 and the goal position to `(0, 0)` and keeps the mode; the
result is the state `stopped, 0, (0, 0)` exactly when the mode was already 0
(stopped). -/
theorem C11_reset_keeps_mode (s : State) :
    (resetEvent s).rover_goal = 0 ∧ (resetEvent s).rover_x_goal = 0 ∧
      (resetEvent s).rover_y_goal = 0 ∧ (resetEvent s).rover_flag = s.rover_flag ∧
      (resetEvent s = ⟨0, 0, 0, 0, s.rover_z_goal⟩ ↔ s.rover_flag = 0) := by
  refine ⟨rfl, rfl, rfl, rfl, ?_⟩
  constructor
  · intro h
    have h2 := congrArg State.rover_flag h
    exact h2
  · intro h
    simp [resetEvent, h]

/-- C16. In every state the mode-advance event (button A) changes only
`rover_flag`: `rover_goal`, the goal position and the goal heading are left
as they were; from square mode at any index with any goal it leads to
triangle mode at the same index with the same goal. -/
theorem C16_mode_event_frame (s : State) (idx : Int) (gx gy gz : ℚ) (x y z : Int) :
    modeEvent s =
      { rover_flag := nextFlag s.rover_flag, rover_goal := s.rover_goal,
        rover_x_goal := s.rover_x_goal, rover_y_goal := s.rover_y_goal,
        rover_z_goal := s.rover_z_goal } ∧
    handleEvents s ⟨false, true, x, y, z⟩ = modeEvent s ∧
    modeEvent ⟨1, idx, gx, gy, gz⟩ = ⟨2, idx, gx, gy, gz⟩ :=
  ⟨rfl, rfl, rfl⟩

/-- C14. For every command of signed 8-bit integers the buffer handed to the
transport is front left, front right, rear right, rear left: entry 0 is
`clamp120 (lateral' + forward' - rotate)`, entry 1
`clamp120 (lateral' - forward' + rotate)`, entry 2
`clamp120 (lateral' - forward' - rotate)` and entry 3
`clamp120 (lateral' + forward' + rotate)`, the primed values being the scaled
ones; the command `(0, 0, 50)` is sent as `-50, 50, -50, 50`. -/
theorem C14_buffer_order (x y z : Int) (hx : IsInt8 x) (hy : IsInt8 y) (hz : IsInt8 z) :
    M5_RoverC_setSpeed x y z =
      [frontLeft (M5_RoverC_setSpeed x y z), frontRight (M5_RoverC_setSpeed x y z),
        rearRight (M5_RoverC_setSpeed x y z), rearLeft (M5_RoverC_setSpeed x y z)] ∧
    M5_RoverC_setSpeed x y z =
      [clamp120 (scaledComponent y z + scaledComponent x z - z),
       clamp120 (scaledComponent y z - scaledComponent x z + z),
       clamp120 (scaledComponent y z - scaledComponent x z - z),
       clamp120 (scaledComponent y z + scaledComponent x z + z)] ∧
    scaledComponent x z = (if z ≠ 0 then Int.tdiv (x * (100 - |z|)) 100 else x) ∧
    scaledComponent y z = (if z ≠ 0 then Int.tdiv (y * (100 - |z|)) 100 else y) ∧
    M5_RoverC_setSpeed 0 0 50 = [-50, 50, -50, 50] := by
  refine ⟨?_, setSpeed_scaled x y z, scaledComponent_eq x z hx hz,
    scaledComponent_eq y z hy hz, by decide⟩
  rw [setSpeed_scaled]
  simp [frontLeft, frontRight, rearLeft, rearRight]

/-- Witness of C14 at the command `(100, -30, 50)`. -/
theorem C14_buffer_order_witness :
    M5_RoverC_setSpeed 100 (-30) 50 =
      [clamp120 (scaledComponent (-30) 50 + scaledComponent 100 50 - 50),
       clamp120 (scaledComponent (-30) 50 - scaledComponent 100 50 + 50),
       clamp120 (scaledComponent (-30) 50 - scaledComponent 100 50 - 50),
       clamp120 (scaledComponent (-30) 50 + scaledComponent 100 50 + 50)] ∧
    scaledComponent 100 50 = (if (50 : Int) ≠ 0 then Int.tdiv (100 * (100 - |50|)) 100 else 100) :=
  ⟨(C14_buffer_order 100 (-30) 50 (by decide) (by decide) (by decide)).2.1,
    (C14_buffer_order 100 (-30) 50 (by decide) (by decide) (by decide)).2.2.1⟩

/-- C12 (counterexample). From the initial state, a mode-advance event, an
arrival at `(0, 0, 0)` and a second mode-advance event lead to triangle mode
at index 1 with the square goal `(0, 300)` still held, which is not entry 1
`(200, 200)` of the triangle pattern; and three arrivals in square mode
followed by two mode-advance events lead to line mode at index 3, which is no
index of the two-entry line pattern. -/
theorem C12_goal_kept_across_mode_event :
    run State.init [⟨false, true, 1000, 1000, 0⟩, ⟨false, false, 0, 0, 0⟩,
      ⟨false, true, 1000, 1000, 0⟩] = ⟨2, 1, 0, 300, 0⟩ ∧
    specEntry (specPattern 2) 1 = (200, 200) ∧
    ¬ GoalMatchesPattern (run State.init [⟨false, true, 1000, 1000, 0⟩,
      ⟨false, false, 0, 0, 0⟩, ⟨false, true, 1000, 1000, 0⟩]) ∧
    run State.init [⟨false, true, 1000, 1000, 0⟩, ⟨false, false, 0, 0, 0⟩,
      ⟨false, false, 0, 300, 0⟩, ⟨false, false, 400, 300, 0⟩,
      ⟨false, true, 1000, 1000, 0⟩, ⟨false, true, 1000, 1000, 0⟩] = ⟨3, 3, 400, 0, 0⟩ := by
  have e : run State.init [⟨false, true, 1000, 1000, 0⟩, ⟨false, false, 0, 0, 0⟩,
      ⟨false, true, 1000, 1000, 0⟩] = ⟨2, 1, 0, 300, 0⟩ := by
    norm_num [run, loop, nextState, handleEvents, arrived, disSq, squareUpdate,
      triangleUpdate, lineUpdate, homeUpdate, State.init, modeEvent, nextFlag]
  refine ⟨e, ?_, ?_, ?_⟩
  · simp [specEntry, specPattern, specTrianglePattern]
  · rw [e]
    simp [GoalMatchesPattern, specEntry, specPattern, specTrianglePattern]
  · norm_num [run, loop, nextState, handleEvents, arrived, disSq, squareUpdate,
      triangleUpdate, lineUpdate, homeUpdate, State.init, modeEvent, nextFlag]

/-- C12 (amended). In every state reached from the initial state the goal
heading is 0 and `rover_goal` lies in `0..3`, so that in square and in
triangle mode it is an index of the four-entry pattern; and in square or
triangle mode a tick without mode-advance event ends with the goal position
at entry `rover_goal` of the pattern of the mode whenever the tick arrives,
or handles a calibration reset, or starts from a state where this already
holds.  Nothing is stated for the line mode or across a mode-advance
event. -/
theorem C12_pattern_goal_amended (inputs : List Input) (i : Input) :
    (run State.init inputs).rover_z_goal = 0 ∧
    (0 ≤ (run State.init inputs).rover_goal ∧ (run State.init inputs).rover_goal ≤ 3) ∧
    ((run State.init inputs).rover_flag = 1 ∨ (run State.init inputs).rover_flag = 2 →
      (run State.init inputs).rover_goal <
        ((specPattern (run State.init inputs).rover_flag).length : Int)) ∧
    (i.btnA_wasReleased = false →
      (run State.init inputs).rover_flag = 1 ∨ (run State.init inputs).rover_flag = 2 →
      GoalMatchesPattern (run State.init inputs) ∨ i.btnB_wasReleased = true ∨
        arrived (handleEvents (run State.init inputs) i) i = true →
      GoalMatchesPattern (loop (run State.init inputs) i).state ∧
        (loop (run State.init inputs) i).state.rover_flag =
          (run State.init inputs).rover_flag) := by
  have hinv := run_inv inputs State.init init_inv
  obtain ⟨h0, h3, hz, _⟩ := hinv
  refine ⟨hz, ⟨h0, h3⟩, ?_, ?_⟩
  · intro hf
    have hl : (specPattern (run State.init inputs).rover_flag).length = 4 := by
      unfold specPattern
      split <;> rfl
    rw [hl]
    push_cast
    omega
  · intro hA hf h
    exact pattern_step _ i (run_inv inputs State.init init_inv) hA hf h

/-- Witness of C12 (amended): square mode entered from the initial state,
then an arrival at `(0, 0, 0)`. -/
theorem C12_pattern_goal_amended_witness :
    GoalMatchesPattern
      (loop (run State.init [⟨false, true, 1000, 1000, 0⟩]) ⟨false, false, 0, 0, 0⟩).state := by
  have e : run State.init [⟨false, true, 1000, 1000, 0⟩] = ⟨1, 0, 0, 0, 0⟩ := by
    norm_num [run, loop, nextState, handleEvents, arrived, disSq, squareUpdate,
      triangleUpdate, lineUpdate, homeUpdate, State.init, modeEvent, nextFlag]
  refine ((C12_pattern_goal_amended [⟨false, true, 1000, 1000, 0⟩]
    ⟨false, false, 0, 0, 0⟩).2.2.2 rfl ?_ ?_).1
  · rw [e]
    exact Or.inl rfl
  · rw [e]
    right
    right
    norm_num [handleEvents, arrived, disSq]

/-- C13. In square, triangle or line mode with goal `(400, 0, 0)` (for
instance line mode at index 1), a tick without button events at pose
`(0, 0, 0)` leaves index and goal as they are; the forward command is
`-(0 - 400) * 0.8 = 320` before the clamp and 100 after it, lateral and
rotate are 0, and the wheels get front left 100, front right -100, rear left
100 and rear right -100. -/
theorem C13_scenario (s : State)
    (hf : s.rover_flag = 1 ∨ s.rover_flag = 2 ∨ s.rover_flag = 3)
    (hx : s.rover_x_goal = 400) (hy : s.rover_y_goal = 0) (hz : s.rover_z_goal = 0) :
    (loop s ⟨false, false, 0, 0, 0⟩).state = s ∧
      -(((0 : Int) : ℚ) - s.rover_x_goal) * (8 / 10) = 320 ∧
      (loop s ⟨false, false, 0, 0, 0⟩).command = ⟨100, 0, 0⟩ ∧
      speedArgs (loop s ⟨false, false, 0, 0, 0⟩).command = (100, 0, 0) ∧
      (loop s ⟨false, false, 0, 0, 0⟩).buffer = [100, -100, -100, 100] ∧
      (frontLeft (loop s ⟨false, false, 0, 0, 0⟩).buffer = 100 ∧
        frontRight (loop s ⟨false, false, 0, 0, 0⟩).buffer = -100 ∧
        rearLeft (loop s ⟨false, false, 0, 0, 0⟩).buffer = 100 ∧
        rearRight (loop s ⟨false, false, 0, 0, 0⟩).buffer = -100) := by
  have hf4 : s.rover_flag ≠ 4 := by omega
  have hf0 : s.rover_flag ≠ 0 := by omega
  have harr : arrived s ⟨false, false, 0, 0, 0⟩ = false := by
    simp only [arrived, disSq, hx, hy, hz]
    norm_num
  have hs : nextState s ⟨false, false, 0, 0, 0⟩ = s :=
    nextState_not_arrived s _ rfl rfl hf4 harr
  have hc : (loop s ⟨false, false, 0, 0, 0⟩).command = ⟨100, 0, 0⟩ := by
    simp only [loop, hs, hx, hy, hz, control, clamp100]
    norm_num
  have ha : speedArgs (loop s ⟨false, false, 0, 0, 0⟩).command = (100, 0, 0) := by
    rw [hc]
    simp only [speedArgs, toInt]
    norm_num [toInt8]
  have hb : (loop s ⟨false, false, 0, 0, 0⟩).buffer = [100, -100, -100, 100] := by
    have e : (loop s ⟨false, false, 0, 0, 0⟩).buffer =
        dispatch (nextState s ⟨false, false, 0, 0, 0⟩)
          (loop s ⟨false, false, 0, 0, 0⟩).command := rfl
    rw [e, hs]
    simp only [dispatch, if_neg hf0, ha]
    decide
  refine ⟨hs, by rw [hx]; norm_num, hc, ha, hb, ?_⟩
  rw [hb]
  decide

/-- Witness of C13: line mode at index 1. -/
theorem C13_scenario_witness :
    (loop ⟨3, 1, 400, 0, 0⟩ ⟨false, false, 0, 0, 0⟩).state = ⟨3, 1, 400, 0, 0⟩ ∧
      (loop ⟨3, 1, 400, 0, 0⟩ ⟨false, false, 0, 0, 0⟩).command = ⟨100, 0, 0⟩ ∧
      (loop ⟨3, 1, 400, 0, 0⟩ ⟨false, false, 0, 0, 0⟩).buffer = [100, -100, -100, 100] :=
  ⟨(C13_scenario ⟨3, 1, 400, 0, 0⟩ (Or.inr (Or.inr rfl)) rfl rfl rfl).1,
    (C13_scenario ⟨3, 1, 400, 0, 0⟩ (Or.inr (Or.inr rfl)) rfl rfl rfl).2.2.1,
    (C13_scenario ⟨3, 1, 400, 0, 0⟩ (Or.inr (Or.inr rfl)) rfl rfl rfl).2.2.2.2.1⟩

/-- C15. In square, triangle and line mode, for every state and integer pose,
a tick without button events changes `rover_goal` exactly when
`dx * dx + dy * dy + dz * dz <= 2500` (distance at most 50, the bound
included: pose `(30, 40, 0)` against goal `(0, 0, 0)` arrives).  When it
arrives the index makes one step, to `rover_goal + 1` or back to 0 at the
wrap test of the mode, whatever the distance to the new goal is; when it does
not arrive the whole state is unchanged, also after a second tick with the
same pose. -/
theorem C15_arrival_threshold (s : State) (i : Input)
    (hB : i.btnB_wasReleased = false) (hA : i.btnA_wasReleased = false)
    (hf : s.rover_flag = 1 ∨ s.rover_flag = 2 ∨ s.rover_flag = 3) :
    (arrived s i = true ↔
      (s.rover_x_goal - i.rover_x_now) * (s.rover_x_goal - i.rover_x_now) +
        (s.rover_y_goal - i.rover_y_now) * (s.rover_y_goal - i.rover_y_now) +
        (s.rover_z_goal - i.rover_z_now) * (s.rover_z_goal - i.rover_z_now) ≤ 2500) ∧
    ((loop s i).state.rover_goal ≠ s.rover_goal ↔ arrived s i = true) ∧
    (arrived s i = true →
      (loop s i).state.rover_goal =
        if s.rover_goal + 1 > (if s.rover_flag = 3 then 2 else 3) then 0
        else s.rover_goal + 1) ∧
    (arrived s i = false → (loop s i).state = s ∧ run s [i, i] = s) ∧
    arrived ⟨s.rover_flag, s.rover_goal, 0, 0, 0⟩ ⟨false, false, 30, 40, 0⟩ = true := by
  have hg : (loop s i).state.rover_goal = _ := nextState_goal s i hB hA
  have hf4 : s.rover_flag ≠ 4 := by omega
  refine ⟨?_, ?_, ?_, ?_, ?_⟩
  · simp only [arrived, disSq, decide_eq_true_eq]
    norm_num
  · rw [hg]
    cases harr : arrived s i
    · simp
    · rcases hf with h | h | h <;> simp only [h] <;> norm_num <;> split_ifs <;> omega
  · intro harr
    rw [hg, harr]
    rcases hf with h | h | h <;> simp [h]
  · intro harr
    have e : (loop s i).state = s := nextState_not_arrived s i hB hA hf4 harr
    refine ⟨e, ?_⟩
    simp only [run, e]
  · simp only [arrived, disSq]
    norm_num

/-- Witness of C15: square mode at index 0, pose `(30, 40, 0)`. -/
theorem C15_arrival_threshold_witness :
    ((loop ⟨1, 0, 0, 0, 0⟩ ⟨false, false, 30, 40, 0⟩).state.rover_goal ≠
        (⟨1, 0, 0, 0, 0⟩ : State).rover_goal ↔
      arrived ⟨1, 0, 0, 0, 0⟩ ⟨false, false, 30, 40, 0⟩ = true) ∧
    arrived ⟨1, 0, 0, 0, 0⟩ ⟨false, false, 30, 40, 0⟩ = true :=
  ⟨(C15_arrival_threshold ⟨1, 0, 0, 0, 0⟩ ⟨false, false, 30, 40, 0⟩ rfl rfl (Or.inl rfl)).2.1,
    (C15_arrival_threshold ⟨1, 0, 0, 0, 0⟩ ⟨false, false, 30, 40, 0⟩ rfl rfl
      (Or.inl rfl)).2.2.2.2⟩

/-- C17. For a linear component `f` in `[-100, 100]` and rotations `r1`, `r2`
with `|r1| <= |r2| <= 100`, the value the mixer uses for `f` satisfies
`|f'(r2)| <= |f'(r1)| <= |f|`, never has the sign opposite to `f`, and is 0
when `|rotate| = 100`; `f'` is the component the wheel sums are built on. -/
theorem C17_scaling_monotone (f r1 r2 : Int) (hf1 : -100 ≤ f) (hf2 : f ≤ 100)
    (h12 : |r1| ≤ |r2|) (h2 : |r2| ≤ 100) :
    (|scaledComponent f r2| ≤ |scaledComponent f r1| ∧ |scaledComponent f r1| ≤ |f|) ∧
    ((0 ≤ f → 0 ≤ scaledComponent f r1 ∧ 0 ≤ scaledComponent f r2) ∧
      (f ≤ 0 → scaledComponent f r1 ≤ 0 ∧ scaledComponent f r2 ≤ 0)) ∧
    ((|r1| = 100 → scaledComponent f r1 = 0) ∧ (|r2| = 100 → scaledComponent f r2 = 0)) ∧
    M5_RoverC_setSpeed f 0 r1 =
      [clamp120 (scaledComponent 0 r1 + scaledComponent f r1 - r1),
       clamp120 (scaledComponent 0 r1 - scaledComponent f r1 + r1),
       clamp120 (scaledComponent 0 r1 - scaledComponent f r1 - r1),
       clamp120 (scaledComponent 0 r1 + scaledComponent f r1 + r1)] := by
  obtain ⟨a1, a2, a3, a4, a5⟩ := scaled_bounds f r1 r2 hf1 hf2 h12 h2
  obtain ⟨_, _, c3, c4, c5⟩ := scaled_bounds f r2 r2 hf1 hf2 (le_refl _) h2
  refine ⟨⟨a1, a2⟩, ⟨fun h => ⟨a4 h, c4 h⟩, fun h => ⟨a5 h, c5 h⟩⟩, ⟨fun h => ?_, fun h => ?_⟩,
    setSpeed_scaled f 0 r1⟩
  · have := abs_nonneg (scaledComponent f r1)
    exact abs_eq_zero.mp (by omega)
  · have := abs_nonneg (scaledComponent f r2)
    exact abs_eq_zero.mp (by omega)

/-- Witness of C17: forward 77 with rotations -30 and 100. -/
theorem C17_scaling_monotone_witness :
    (|scaledComponent 77 100| ≤ |scaledComponent 77 (-30)| ∧
      |scaledComponent 77 (-30)| ≤ |(77 : Int)|) ∧
    (|(100 : Int)| = 100 → scaledComponent 77 100 = 0) :=
  ⟨(C17_scaling_monotone 77 (-30) 100 (by decide) (by decide) (by decide) (by decide)).1,
    (C17_scaling_monotone 77 (-30) 100 (by decide) (by decide) (by decide)
      (by decide)).2.2.1.2⟩

/-- C18. For every command with forward, lateral and rotate in `[-100, 100]`
and at most one of forward and lateral nonzero, each of the four wheel sums
lies in `[-100, 100]` before the clamp, so the clamp changes nothing and the
buffer holds the sums of the mixing matrix themselves. -/
theorem C18_single_axis_no_saturation (x y z : Int)
    (hx1 : -100 ≤ x) (hx2 : x ≤ 100) (hy1 : -100 ≤ y) (hy2 : y ≤ 100)
    (hz1 : -100 ≤ z) (hz2 : z ≤ 100) (hxy : x = 0 ∨ y = 0) :
    ((-100 ≤ scaledComponent y z + scaledComponent x z - z ∧
        scaledComponent y z + scaledComponent x z - z ≤ 100) ∧
      (-100 ≤ scaledComponent y z - scaledComponent x z + z ∧
        scaledComponent y z - scaledComponent x z + z ≤ 100) ∧
      (-100 ≤ scaledComponent y z - scaledComponent x z - z ∧
        scaledComponent y z - scaledComponent x z - z ≤ 100) ∧
      (-100 ≤ scaledComponent y z + scaledComponent x z + z ∧
        scaledComponent y z + scaledComponent x z + z ≤ 100)) ∧
    M5_RoverC_setSpeed x y z =
      [scaledComponent y z + scaledComponent x z - z,
       scaledComponent y z - scaledComponent x z + z,
       scaledComponent y z - scaledComponent x z - z,
       scaledComponent y z + scaledComponent x z + z] := by
  have hz : |z| ≤ 100 := abs_le.mpr ⟨hz1, hz2⟩
  obtain ⟨_, ax, bx, _, _⟩ := scaled_bounds x z z hx1 hx2 (le_refl _) hz
  obtain ⟨_, ay, by1, _, _⟩ := scaled_bounds y z z hy1 hy2 (le_refl _) hz
  have hza := le_abs_self z
  have hzb := neg_abs_le z
  have hsx := abs_le.mp (show |scaledComponent x z| ≤ 100 - |z| by omega)
  have hsy := abs_le.mp (show |scaledComponent y z| ≤ 100 - |z| by omega)
  have key : (-100 ≤ scaledComponent y z + scaledComponent x z - z ∧
        scaledComponent y z + scaledComponent x z - z ≤ 100) ∧
      (-100 ≤ scaledComponent y z - scaledComponent x z + z ∧
        scaledComponent y z - scaledComponent x z + z ≤ 100) ∧
      (-100 ≤ scaledComponent y z - scaledComponent x z - z ∧
        scaledComponent y z - scaledComponent x z - z ≤ 100) ∧
      (-100 ≤ scaledComponent y z + scaledComponent x z + z ∧
        scaledComponent y z + scaledComponent x z + z ≤ 100) := by
    rcases hxy with h | h
    · subst h
      have h0 : scaledComponent 0 z = 0 := by
        rw [abs_zero] at ax
        exact abs_eq_zero.mp (le_antisymm ax (abs_nonneg _))
      rw [h0]
      omega
    · subst h
      have h0 : scaledComponent 0 z = 0 := by
        rw [abs_zero] at ay
        exact abs_eq_zero.mp (le_antisymm ay (abs_nonneg _))
      rw [h0]
      omega
  refine ⟨key, ?_⟩
  obtain ⟨⟨k1, k2⟩, ⟨k3, k4⟩, ⟨k5, k6⟩, ⟨k7, k8⟩⟩ := key
  rw [setSpeed_scaled, clamp120_id _ (by omega) (by omega), clamp120_id _ (by omega) (by omega),
    clamp120_id _ (by omega) (by omega), clamp120_id _ (by omega) (by omega)]

/-- Witness of C18: forward 100 with rotate -60, lateral 0. -/
theorem C18_single_axis_no_saturation_witness :
    M5_RoverC_setSpeed 100 0 (-60) =
      [scaledComponent 0 (-60) + scaledComponent 100 (-60) - -60,
       scaledComponent 0 (-60) - scaledComponent 100 (-60) + -60,
       scaledComponent 0 (-60) - scaledComponent 100 (-60) - -60,
       scaledComponent 0 (-60) + scaledComponent 100 (-60) + -60] :=
  (C18_single_axis_no_saturation 100 0 (-60) (by decide) (by decide) (by decide) (by decide)
    (by decide) (by decide) (Or.inr rfl)).2

/-- C19. For every command with components in `[-127, 127]`, the buffer of
the negated command `(-x, -y, -z)` is the entrywise negation of the buffer of
`(x, y, z)`, truncating scaling and clamp included. -/
theorem C19_mixer_odd (x y z : Int) (hx1 : -127 ≤ x) (hx2 : x ≤ 127)
    (hy1 : -127 ≤ y) (hy2 : y ≤ 127) (hz1 : -127 ≤ z) (hz2 : z ≤ 127) :
    M5_RoverC_setSpeed (-x) (-y) (-z) = (M5_RoverC_setSpeed x y z).map (fun v => -v) := by
  rw [setSpeed_scaled, setSpeed_scaled, scaledComponent_neg x z hx1 hx2 hz1 hz2,
    scaledComponent_neg y z hy1 hy2 hz1 hz2]
  simp only [List.map_cons, List.map_nil]
  have e1 : clamp120 (-scaledComponent y z + -scaledComponent x z - -z) =
      -clamp120 (scaledComponent y z + scaledComponent x z - z) :=
    clamp120_neg _ _ (by omega)
  have e2 : clamp120 (-scaledComponent y z - -scaledComponent x z + -z) =
      -clamp120 (scaledComponent y z - scaledComponent x z + z) :=
    clamp120_neg _ _ (by omega)
  have e3 : clamp120 (-scaledComponent y z - -scaledComponent x z - -z) =
      -clamp120 (scaledComponent y z - scaledComponent x z - z) :=
    clamp120_neg _ _ (by omega)
  have e4 : clamp120 (-scaledComponent y z + -scaledComponent x z + -z) =
      -clamp120 (scaledComponent y z + scaledComponent x z + z) :=
    clamp120_neg _ _ (by omega)
  rw [e1, e2, e3, e4]

/-- Witness of C19 at the command `(127, -45, 33)`. -/
theorem C19_mixer_odd_witness :
    M5_RoverC_setSpeed (-127) (- -45) (-33) =
      (M5_RoverC_setSpeed 127 (-45) 33).map (fun v => -v) :=
  C19_mixer_odd 127 (-45) 33 (by decide) (by decide) (by decide) (by decide) (by decide)
    (by decide)

/-- C20. In every state reached from the initial state by any sequence of
ticks, with any poses and any button events, `rover_goal` lies in `0..3`, the
goal heading is 0 and the goal position is one of `(0, 0)`, `(0, 300)`,
`(400, 300)`, `(400, 0)`, `(200, 200)` and `(-200, 200)`. -/
theorem C20_reachable_goal_invariant (inputs : List Input) :
    (0 ≤ (run State.init inputs).rover_goal ∧ (run State.init inputs).rover_goal ≤ 3) ∧
      (run State.init inputs).rover_z_goal = 0 ∧
      ((run State.init inputs).rover_x_goal, (run State.init inputs).rover_y_goal) ∈
        [((0 : ℚ), (0 : ℚ)), (0, 300), (400, 300), (400, 0), (200, 200), (-200, 200)] := by
  obtain ⟨h0, h3, hz, hw⟩ := run_inv inputs State.init init_inv
  exact ⟨⟨h0, h3⟩, hz, hw⟩

end KaitenShinaiSushi
